import Mathlib

/-!
Shallow embedding of the memory-monitoring core of the repository
(`include/memory/nanoflann_memory_monitor.hpp` /
`nanoflann_memory_monitor_impl.hpp`).

The file contains two monitor variants:
* `nanoflann::MemoryMonitor` (impl file, lines 24-298 plus the class
  declaration in the header): event history, callbacks, MB-granular stats;
* `NanoflannMonitor::MemoryMonitor` (second document in the impl file,
  lines 420-676): byte-granular baseline/peak stats and a
  `threshold_exceeded_count` counter updated by `monitor_loop`.

Modelling conventions:
* `std::chrono` time points become `Nat` milliseconds; the steady clock is
  passed in as an explicit `now` argument.
* The memory reporter (`memory_reporter_()` / `PlatformMemory::get_current_memory()`)
  is passed in as an explicit `reading` argument at each sampling call.
* Threads, mutexes and condition variables are not modelled; the body of one
  loop iteration is modelled as a step function, and a run of the loop as a
  fold over the list of readings it observes.
* `dispatched` is a ghost field recording, in order, every event passed to the
  registered callbacks by `trigger_event` (the code iterates `callbacks_`
  per event; one entry here corresponds to one dispatch round).
* The function-static locals `last_memory_mb` / `last_spike_check` of
  `process_memory_check` are carried in the monitor state (they are shared
  across instances in C++; for a single monitor this is equivalent).
-/

namespace nanoflann

/-- `MemoryMonitor::EventType` (header, lines 413-419). -/
inductive EventType where
  | THRESHOLD_EXCEEDED
  | PEAK_MEMORY_REACHED
  | TREE_BUILD_START
  | TREE_BUILD_END
  | MEMORY_SPIKE_DETECTED
deriving DecidableEq, Repr

/-- `MemoryMonitor::MemoryEvent` (header, lines 422-428); timestamps are ms. -/
structure MemoryEvent where
  type : EventType
  memory_mb : Nat
  timestamp : Nat
  context : String
  stack_trace : String
deriving DecidableEq, Repr

/-- `MemoryMonitor::Config` (header, lines 394-400). -/
structure Config where
  memory_threshold_mb : Nat := 100
  check_interval_ms : Nat := 100
  enable_background_monitoring : Bool := true
  enable_detailed_logging : Bool := false
  log_prefix : String := "[NANOFLANN_MEMORY]"
deriving DecidableEq, Repr

/-- `MemoryMonitor::MemoryStats` (header, lines 403-410). -/
structure MemoryStats where
  peak_memory_mb : Nat := 0
  current_memory_mb : Nat := 0
  allocation_count : Nat := 0
  deallocation_count : Nat := 0
  last_check : Nat := 0
  peak_time : Nat := 0
deriving DecidableEq, Repr

/-- The mutable state of one `nanoflann::MemoryMonitor` object. `dispatched`
is the ghost trace of callback dispatches (see the file header);
`last_memory_mb` / `last_spike_check` are the function-static locals of
`process_memory_check` (impl, lines 174-175). -/
structure MonitorState where
  config : Config
  stats : MemoryStats := {}
  monitoring_active : Bool := false
  event_history : List MemoryEvent := []
  dispatched : List MemoryEvent := []
  last_memory_mb : Nat := 0
  last_spike_check : Nat := 0
deriving DecidableEq, Repr

/-- A freshly constructed monitor (impl, lines 27-31): inactive, empty
history, zeroed stats except the clock fields. -/
def MonitorState.init (config : Config) (now : Nat) : MonitorState :=
  { config := config
    stats := { last_check := now, peak_time := now } }

/-- `MemoryMonitor::get_stack_trace` (impl, lines 225-229) always returns this
placeholder. -/
def stack_trace_placeholder : String :=
  "Stack trace not available in this implementation"

/-- The history-truncation part of `MemoryMonitor::trigger_event` (impl,
lines 202-212): append, then drop the oldest entries beyond 1000. -/
def push_event (history : List MemoryEvent) (event : MemoryEvent) :
    List MemoryEvent :=
  let h := history ++ [event]
  if h.length > 1000 then h.drop (h.length - 1000) else h

/-- `MemoryMonitor::trigger_event` (impl, lines 201-223): store the event in
the bounded history, then invoke every callback on it (recorded in the ghost
`dispatched` trace). -/
def trigger_event (s : MonitorState) (event : MemoryEvent) : MonitorState :=
  { s with
    event_history := push_event s.event_history event
    dispatched := s.dispatched ++ [event] }

/-- `MemoryMonitor::update_stats` (impl, lines 231-241). -/
def update_stats (s : MonitorState) (current_memory_mb : Nat) (now : Nat) :
    MonitorState :=
  let stats := { s.stats with
    current_memory_mb := current_memory_mb
    last_check := now }
  let stats :=
    if current_memory_mb > stats.peak_memory_mb then
      { stats with peak_memory_mb := current_memory_mb, peak_time := now }
    else stats
  { s with stats := stats }

/-- `MemoryMonitor::process_memory_check` (impl, lines 154-199).
`reading_bytes` is the value returned by `memory_reporter_()`. -/
def process_memory_check (s : MonitorState) (reading_bytes : Nat) (now : Nat)
    (context : String) : MonitorState :=
  let current_memory_mb := reading_bytes / (1024 * 1024)
  let s := update_stats s current_memory_mb now
  let s :=
    if current_memory_mb > s.config.memory_threshold_mb then
      trigger_event s
        { type := EventType.THRESHOLD_EXCEEDED
          memory_mb := current_memory_mb
          timestamp := now
          context := context
          stack_trace := stack_trace_placeholder }
    else s
  if now - s.last_spike_check > 1000 then
    let memory_increase :=
      if current_memory_mb > s.last_memory_mb then
        current_memory_mb - s.last_memory_mb
      else 0
    let s :=
      if memory_increase > 50 then
        trigger_event s
          { type := EventType.MEMORY_SPIKE_DETECTED
            memory_mb := current_memory_mb
            timestamp := now
            context := context ++ " (spike: +" ++ toString memory_increase ++ "MB)"
            stack_trace := stack_trace_placeholder }
      else s
    { s with last_memory_mb := current_memory_mb, last_spike_check := now }
  else s

/-- `MemoryMonitor::check_memory` (impl, lines 92-98): a no-op unless the
monitor is active. -/
def check_memory (s : MonitorState) (reading_bytes : Nat) (now : Nat)
    (context : String) : MonitorState :=
  if s.monitoring_active = false then s
  else process_memory_check s reading_bytes now context

/-- `MemoryMonitor::start` (impl, lines 37-50): no-op when already active;
otherwise set the active flag (thread spawn not modelled) and take the
initial check. -/
def start (s : MonitorState) (reading_bytes : Nat) (now : Nat) : MonitorState :=
  if s.monitoring_active then s
  else
    let s := { s with monitoring_active := true }
    check_memory s reading_bytes now "Monitor started"

/-- `MemoryMonitor::stop` (impl, lines 52-66): no-op when not active;
otherwise clear the active flag (thread join not modelled) and call
`check_memory` for the final check. -/
def stop (s : MonitorState) (reading_bytes : Nat) (now : Nat) : MonitorState :=
  if s.monitoring_active = false then s
  else
    let s := { s with monitoring_active := false }
    check_memory s reading_bytes now "Monitor stopped"

/-- The event built by `MemoryMonitor::mark_tree_build_start`
(impl, lines 101-107). -/
def tree_build_start_event (s : MonitorState) (now : Nat) (context : String) :
    MemoryEvent :=
  { type := EventType.TREE_BUILD_START
    memory_mb := s.stats.current_memory_mb
    timestamp := now
    context := context
    stack_trace := stack_trace_placeholder }

/-- `MemoryMonitor::mark_tree_build_start` (impl, lines 100-111): trigger a
`TREE_BUILD_START` event unconditionally, then `check_memory`. -/
def mark_tree_build_start (s : MonitorState) (reading_bytes : Nat) (now : Nat)
    (context : String) : MonitorState :=
  let s := trigger_event s (tree_build_start_event s now context)
  check_memory s reading_bytes now ("Tree build start: " ++ context)

/-- The event built by `MemoryMonitor::mark_tree_build_end`
(impl, lines 114-120). -/
def tree_build_end_event (s : MonitorState) (now : Nat) (context : String) :
    MemoryEvent :=
  { type := EventType.TREE_BUILD_END
    memory_mb := s.stats.current_memory_mb
    timestamp := now
    context := context
    stack_trace := stack_trace_placeholder }

/-- `MemoryMonitor::mark_tree_build_end` (impl, lines 113-124). -/
def mark_tree_build_end (s : MonitorState) (reading_bytes : Nat) (now : Nat)
    (context : String) : MonitorState :=
  let s := trigger_event s (tree_build_end_event s now context)
  check_memory s reading_bytes now ("Tree build end: " ++ context)

/-- `MemoryMonitor::reset` (impl, lines 131-138): zero the stats, clear the
event history, refresh the clock fields. The ghost dispatch trace is not
cleared (callbacks already ran). -/
def reset (s : MonitorState) (now : Nat) : MonitorState :=
  { s with
    stats := { last_check := now, peak_time := now }
    event_history := [] }

/-- `TreeBuildScope` (header, lines 582-605): monitor reference modelled by
threading the monitor state alongside. -/
structure TreeBuildScope where
  context : String
  ended : Bool
deriving DecidableEq, Repr

/-- `TreeBuildScope::TreeBuildScope` (impl, lines 282-285): mark the build
start; `ended_` starts false. -/
def TreeBuildScope.construct (s : MonitorState) (reading_bytes : Nat)
    (now : Nat) (context : String) : MonitorState × TreeBuildScope :=
  (mark_tree_build_start s reading_bytes now context,
   { context := context, ended := false })

/-- `TreeBuildScope::end` (impl, lines 293-298): emit the build-end marker
only if not already ended. -/
def TreeBuildScope.endScope (p : MonitorState × TreeBuildScope)
    (reading_bytes : Nat) (now : Nat) (context : String) :
    MonitorState × TreeBuildScope :=
  if p.2.ended then p
  else
    let ctx := if context = "" then p.2.context else context
    (mark_tree_build_end p.1 reading_bytes now ctx, { p.2 with ended := true })

/-- `TreeBuildScope::~TreeBuildScope` (impl, lines 287-291): call `end()`
unless already ended. -/
def TreeBuildScope.dtor (p : MonitorState × TreeBuildScope)
    (reading_bytes : Nat) (now : Nat) : MonitorState × TreeBuildScope :=
  if p.2.ended = false then TreeBuildScope.endScope p reading_bytes now ""
  else p

/-- Observable: how many events of a given type appear in a trace. -/
def countType (l : List MemoryEvent) (ty : EventType) : Nat :=
  l.countP (fun e => e.type == ty)

/-- The modulus of `size_t` arithmetic: `sizeof(size_t)` (and
`sizeof(void*)`) taken as 8 (LP64), so unsigned arithmetic wraps
modulo `2 ^ 64`. -/
def size_t_mod : Nat := 2 ^ 64

/-- `memory_utils::estimate_tree_memory_usage` (impl, lines 368-390). All
arithmetic in the source is on `size_t`, so every multiplication and
addition below reduces modulo `size_t_mod`, mirroring the C++
left-to-right evaluation order. The code's
`static_cast<size_t>(total_bytes * 1.2)` is modelled as
`total_bytes * 12 / 10` reduced modulo `size_t_mod`: the `double` factor
and the truncating cast form a weakly monotone function of the exact
product wherever the cast result is representable, so order facts proved
below transfer there (for out-of-range results the C++ cast is undefined;
the concrete inputs used below keep the scaled total in range). -/
def estimate_tree_memory_usage (num_points dimension point_type_size : Nat) :
    Nat :=
  let point_data_size :=
    num_points * dimension % size_t_mod * point_type_size % size_t_mod
  let tree_nodes_size := num_points * 8 % size_t_mod * 2 % size_t_mod
  let index_arrays_size := num_points * 8 % size_t_mod * 2 % size_t_mod
  let construction_buffer_size := num_points * 8 % size_t_mod
  let total_bytes := (point_data_size + tree_nodes_size) % size_t_mod
  let total_bytes := (total_bytes + index_arrays_size) % size_t_mod
  let total_bytes := (total_bytes + construction_buffer_size) % size_t_mod
  let total_bytes := total_bytes * 12 / 10 % size_t_mod
  total_bytes / (1024 * 1024)

end nanoflann

namespace NanoflannMonitor

/-- `NanoflannMonitor::MonitorConfig` (header document, lines 427-434;
`custom_logger` omitted: logging sinks are out of scope). -/
structure MonitorConfig where
  threshold_mb : Nat := 100
  check_interval_ms : Nat := 100
  monitor_rss : Bool := true
  monitor_vss : Bool := false
  print_to_stderr : Bool := true
deriving DecidableEq, Repr

/-- `NanoflannMonitor::MemoryStats` (header document, lines 437-442). -/
structure MemoryStats where
  rss_bytes : Nat := 0
  vss_bytes : Nat := 0
  peak_rss_bytes : Nat := 0
  timestamp : Nat := 0
deriving DecidableEq, Repr

/-- The mutable state of one `NanoflannMonitor::MemoryMonitor` object
(header document, lines 513-521; the thread handle and `should_stop_` flag
are not modelled — a run of `monitor_loop` is a fold over the readings it
observes before the stop signal). `alert_count` is a ghost counter of the
threshold log messages emitted by `monitor_loop`. -/
structure NMonState where
  config : MonitorConfig
  monitoring : Bool := false
  baseline_stats : MemoryStats := {}
  peak_stats : MemoryStats := {}
  threshold_exceeded_count : Nat := 0
  alert_count : Nat := 0
deriving DecidableEq, Repr

/-- A freshly constructed `NanoflannMonitor::MemoryMonitor`
(header document, lines 568-569). -/
def NMonState.init (config : MonitorConfig) : NMonState :=
  { config := config }

/-- One iteration of `NanoflannMonitor::MemoryMonitor::monitor_loop`
(header document, lines 531-565): update the peak, then, when RSS monitoring
is on and the current RSS exceeds the byte threshold, increment
`threshold_exceeded_count` and log an alert. `current` is the reading
returned by `PlatformMemory::get_current_memory()`. -/
def monitor_loop_step (s : NMonState) (current : MemoryStats) : NMonState :=
  let s :=
    if current.rss_bytes > s.peak_stats.rss_bytes then
      { s with peak_stats := current }
    else s
  let threshold_bytes := s.config.threshold_mb * 1024 * 1024
  if s.config.monitor_rss && decide (current.rss_bytes > threshold_bytes) then
    { s with
      threshold_exceeded_count := s.threshold_exceeded_count + 1
      alert_count := s.alert_count + 1 }
  else s

/-- `NanoflannMonitor::MemoryMonitor::start` (header document, lines
576-595): no-op when already monitoring; otherwise re-capture the baseline,
reset the peak to the baseline and the exceeded counter to 0 (thread spawn
and logging not modelled). `reading` is the baseline measurement. -/
def nmStart (s : NMonState) (reading : MemoryStats) : NMonState :=
  if s.monitoring then s
  else
    { s with
      baseline_stats := reading
      peak_stats := reading
      threshold_exceeded_count := 0
      monitoring := true }

/-- `NanoflannMonitor::MemoryMonitor::stop` (header document, lines
598-620): no-op when not monitoring; otherwise join the loop (not
modelled), clear the flag and read `final_stats` for the log message only —
`peak_stats_` and the counter are left untouched. -/
def nmStop (s : NMonState) (_final_reading : MemoryStats) : NMonState :=
  if s.monitoring = false then s
  else { s with monitoring := false }

/-- A full background-monitoring run: the loop body applied to each reading
it observes, in order. -/
def nmRun (s : NMonState) (readings : List MemoryStats) : NMonState :=
  List.foldl monitor_loop_step s readings

end NanoflannMonitor

section Claims

open nanoflann NanoflannMonitor

/-! Helper lemmas shared by the claim theorems. -/

theorem monitor_loop_step_peak_ge (s : NMonState)
    (current : NanoflannMonitor.MemoryStats) :
    current.rss_bytes ≤ (monitor_loop_step s current).peak_stats.rss_bytes ∧
    s.peak_stats.rss_bytes ≤ (monitor_loop_step s current).peak_stats.rss_bytes := by
  unfold monitor_loop_step
  dsimp only
  split <;> split <;> simp_all <;> omega

theorem monitor_loop_step_baseline (s : NMonState)
    (current : NanoflannMonitor.MemoryStats) :
    (monitor_loop_step s current).baseline_stats = s.baseline_stats := by
  unfold monitor_loop_step
  dsimp only
  split <;> split <;> rfl

theorem nmRun_baseline (s : NMonState)
    (readings : List NanoflannMonitor.MemoryStats) :
    (nmRun s readings).baseline_stats = s.baseline_stats := by
  induction readings generalizing s with
  | nil => rfl
  | cons r rs ih =>
      show (nmRun (monitor_loop_step s r) rs).baseline_stats = _
      rw [ih, monitor_loop_step_baseline]

theorem nmRun_peak_mono (s : NMonState)
    (readings : List NanoflannMonitor.MemoryStats) :
    s.peak_stats.rss_bytes ≤ (nmRun s readings).peak_stats.rss_bytes := by
  induction readings generalizing s with
  | nil => exact Nat.le_refl _
  | cons r rs ih =>
      exact Nat.le_trans (monitor_loop_step_peak_ge s r).2
        (ih (monitor_loop_step s r))

theorem update_stats_peak (s : MonitorState) (m t : Nat) :
    (update_stats s m t).stats.current_memory_mb ≤
      (update_stats s m t).stats.peak_memory_mb ∧
    s.stats.peak_memory_mb ≤ (update_stats s m t).stats.peak_memory_mb := by
  unfold update_stats
  dsimp only
  split <;> (simp_all; try omega)

theorem push_event_drop (L : List nanoflann.MemoryEvent)
    (e : nanoflann.MemoryEvent) :
    push_event (L.drop (L.length - 1000)) e =
      (L ++ [e]).drop (L.length + 1 - 1000) := by
  unfold push_event
  dsimp only
  by_cases h : L.length < 1000
  · have h0 : L.length - 1000 = 0 := by omega
    have h1 : L.length + 1 - 1000 = 0 := by omega
    rw [h0, h1, List.drop_zero, List.drop_zero, if_neg]
    simp
    omega
  · push_neg at h
    have hgt : (L.drop (L.length - 1000) ++ [e]).length > 1000 := by
      simp
      omega
    rw [if_pos hgt]
    have h1 : (L.drop (L.length - 1000) ++ [e]).length - 1000 = 1 := by
      simp
      omega
    rw [h1]
    rw [List.drop_append_of_le_length (by simp; omega), List.drop_drop]
    rw [List.drop_append_of_le_length (by omega)]
    have h2 : L.length - 1000 + 1 = L.length + 1 - 1000 := by omega
    rw [h2]

theorem foldl_push_event (es : List nanoflann.MemoryEvent) :
    List.foldl push_event [] es = es.drop (es.length - 1000) := by
  induction es using List.reverseRecOn with
  | nil => rfl
  | append_singleton L e ih =>
      rw [List.foldl_append]
      simp only [List.foldl_cons, List.foldl_nil]
      rw [ih, push_event_drop]
      simp

/-- C6: bounded FIFO event log. `trigger_event` updates the history via
`push_event`; starting from the empty history, after any sequence of emitted
events the retained history is exactly the last (at most 1000) events in
emission order — the `drop` of all but the final 1000 — and its length never
exceeds 1000. -/
theorem C6_event_log_bound :
    (∀ (s : MonitorState) (e : nanoflann.MemoryEvent),
        (trigger_event s e).event_history = push_event s.event_history e) ∧
    ∀ es : List nanoflann.MemoryEvent,
      List.foldl push_event [] es = es.drop (es.length - 1000) ∧
      (List.foldl push_event [] es).length ≤ 1000 := by
  refine ⟨fun s e => rfl, fun es => ⟨foldl_push_event es, ?_⟩⟩
  rw [foldl_push_event es]
  simp
  omega

theorem stop_eq (s : MonitorState) (reading now : Nat) :
    stop s reading now = { s with monitoring_active := false } := by
  unfold stop check_memory
  by_cases h : s.monitoring_active = false
  · simp only [if_pos h]
    cases s
    simp_all
  · simp [h]

theorem monitor_loop_step_config (s : NMonState)
    (current : NanoflannMonitor.MemoryStats) :
    (monitor_loop_step s current).config = s.config := by
  unfold monitor_loop_step
  dsimp only
  split <;> split <;> rfl

theorem monitor_loop_step_count (s : NMonState)
    (current : NanoflannMonitor.MemoryStats) :
    (monitor_loop_step s current).threshold_exceeded_count =
      s.threshold_exceeded_count +
        (if s.config.monitor_rss &&
            decide (current.rss_bytes > s.config.threshold_mb * 1024 * 1024)
         then 1 else 0) := by
  unfold monitor_loop_step
  dsimp only
  split <;> split <;> simp_all

theorem update_stats_config (s : MonitorState) (m t : Nat) :
    (update_stats s m t).config = s.config := rfl

theorem update_stats_dispatched (s : MonitorState) (m t : Nat) :
    (update_stats s m t).dispatched = s.dispatched := rfl

theorem process_memory_check_countTh (s : MonitorState) (reading now : Nat)
    (context : String) :
    countType (process_memory_check s reading now context).dispatched
        EventType.THRESHOLD_EXCEEDED =
      countType s.dispatched EventType.THRESHOLD_EXCEEDED +
        (if reading / (1024 * 1024) > s.config.memory_threshold_mb
         then 1 else 0) := by
  unfold process_memory_check trigger_event countType
  dsimp only
  simp only [update_stats_config, update_stats_dispatched]
  split <;> split <;> (try split) <;> (try split) <;>
    simp_all [update_stats_dispatched, List.countP_append, List.countP_cons,
      beq_iff_eq]

/-- C1 counterexample: threshold alerting is level-triggered, not
edge-triggered. With a 1 MB threshold and readings
below, above, above, below, above (0 B and 3 MiB), the
`NanoflannMonitor` loop increments `threshold_exceeded_count` 3 times, not
2, and the `nanoflann` variant dispatches 3 `THRESHOLD_EXCEEDED` events,
not 2. -/
theorem C1_level_triggered_counterexample :
    ((nmRun (nmStart (NMonState.init { threshold_mb := 1 }) { rss_bytes := 0 })
        [{ rss_bytes := 0 }, { rss_bytes := 3145728 }, { rss_bytes := 3145728 },
         { rss_bytes := 0 }, { rss_bytes := 3145728 }]).threshold_exceeded_count = 3 ∧
     (nmRun (nmStart (NMonState.init { threshold_mb := 1 }) { rss_bytes := 0 })
        [{ rss_bytes := 0 }, { rss_bytes := 3145728 }, { rss_bytes := 3145728 },
         { rss_bytes := 0 }, { rss_bytes := 3145728 }]).threshold_exceeded_count ≠ 2) ∧
    (countType
        (List.foldl (fun s r => check_memory s r 0 "sample")
          { config := { memory_threshold_mb := 1 }, monitoring_active := true }
          [0, 3145728, 3145728, 0, 3145728]).dispatched
        EventType.THRESHOLD_EXCEEDED = 3) :=
  ⟨⟨by rfl, by decide⟩, by rfl⟩

/-- C1 amended: within one session the exceeded counter is level-triggered:
each sample whose RSS is above the byte threshold (with RSS monitoring
enabled) increments `threshold_exceeded_count` by one, so a run adds the
*number of above-threshold samples* — for below, above, above, below, above
that is 3, not 2. Per sample, the `nanoflann` variant likewise dispatches
one `THRESHOLD_EXCEEDED` event exactly when the sampled MB value is above
the MB threshold. -/
theorem C1_threshold_count_per_sample (s : NMonState)
    (readings : List NanoflannMonitor.MemoryStats)
    (hrss : s.config.monitor_rss = true) :
    (nmRun s readings).threshold_exceeded_count =
      s.threshold_exceeded_count +
        readings.countP
          (fun r => decide (r.rss_bytes > s.config.threshold_mb * 1024 * 1024)) ∧
    ∀ (t : MonitorState) (reading now : Nat) (context : String),
      countType (process_memory_check t reading now context).dispatched
          EventType.THRESHOLD_EXCEEDED =
        countType t.dispatched EventType.THRESHOLD_EXCEEDED +
          (if reading / (1024 * 1024) > t.config.memory_threshold_mb
           then 1 else 0) := by
  refine ⟨?_, process_memory_check_countTh⟩
  induction readings generalizing s with
  | nil => simp [nmRun]
  | cons r rs ih =>
      show (nmRun (monitor_loop_step s r) rs).threshold_exceeded_count = _
      rw [ih (monitor_loop_step s r)
            (by rw [monitor_loop_step_config]; exact hrss)]
      rw [monitor_loop_step_count, monitor_loop_step_config, hrss]
      simp [List.countP_cons]
      split <;> (simp_all; try omega)

/-- Witness for the amended C1 on the counterexample run: 3 above-threshold
samples give a count of 3. -/
theorem C1_threshold_count_per_sample_witness :
    (nmRun (nmStart (NMonState.init { threshold_mb := 1 }) { rss_bytes := 0 })
        [{ rss_bytes := 0 }, { rss_bytes := 3145728 }, { rss_bytes := 3145728 },
         { rss_bytes := 0 }, { rss_bytes := 3145728 }]).threshold_exceeded_count =
      (nmStart (NMonState.init { threshold_mb := 1 })
          { rss_bytes := 0 }).threshold_exceeded_count +
        ([{ rss_bytes := 0 }, { rss_bytes := 3145728 }, { rss_bytes := 3145728 },
          { rss_bytes := 0 },
          { rss_bytes := 3145728 }] : List NanoflannMonitor.MemoryStats).countP
          (fun r => decide (r.rss_bytes >
            (nmStart (NMonState.init { threshold_mb := 1 })
                { rss_bytes := 0 }).config.threshold_mb * 1024 * 1024)) :=
  (C1_threshold_count_per_sample
    (nmStart (NMonState.init { threshold_mb := 1 }) { rss_bytes := 0 })
    [{ rss_bytes := 0 }, { rss_bytes := 3145728 }, { rss_bytes := 3145728 },
     { rss_bytes := 0 }, { rss_bytes := 3145728 }] (by decide)).1

/-- C3 counterexample: detection is not delta-based. Baseline and current
RSS are both 200 MiB (delta 0, far below the 100 MB threshold's byte value),
yet one loop iteration increments `threshold_exceeded_count` (and logs an
alert) because the code compares the *absolute* current RSS against the
threshold. -/
theorem C3_absolute_threshold_counterexample :
    (monitor_loop_step
        (nmStart (NMonState.init { threshold_mb := 100 })
          { rss_bytes := 209715200 })
        { rss_bytes := 209715200 }).threshold_exceeded_count = 1 ∧
    ({ rss_bytes := 209715200 } : NanoflannMonitor.MemoryStats).rss_bytes -
        (nmStart (NMonState.init { threshold_mb := 100 })
            { rss_bytes := 209715200 }).baseline_stats.rss_bytes ≤
      100 * 1024 * 1024 :=
  ⟨by rfl, by decide⟩

/-- C3 amended: threshold detection is absolute, not delta-based. A loop
iteration increments the exceeded counter exactly when RSS monitoring is on
and the absolute current RSS exceeds `threshold_mb * 1024 * 1024`; the
baseline plays no part. Likewise `nanoflann::process_memory_check` dispatches
a `THRESHOLD_EXCEEDED` event exactly when the absolute sampled MB value
exceeds the configured MB threshold. -/
theorem C3_threshold_absolute (s : NMonState)
    (current : NanoflannMonitor.MemoryStats) :
    ((monitor_loop_step s current).threshold_exceeded_count =
        s.threshold_exceeded_count + 1 ↔
      s.config.monitor_rss = true ∧
        current.rss_bytes > s.config.threshold_mb * 1024 * 1024) ∧
    ∀ (t : MonitorState) (reading now : Nat) (context : String),
      countType (process_memory_check t reading now context).dispatched
          EventType.THRESHOLD_EXCEEDED >
        countType t.dispatched EventType.THRESHOLD_EXCEEDED ↔
      reading / (1024 * 1024) > t.config.memory_threshold_mb := by
  constructor
  · rw [monitor_loop_step_count]
    split <;> simp_all
  · intro t reading now context
    rw [process_memory_check_countTh]
    split <;> simp_all

/-- C4 counterexample: events are created while the sampler is Idle. On a
freshly constructed (inactive) monitor, `mark_tree_build_start` appends a
`TREE_BUILD_START` event to the history and dispatches it to callbacks. -/
theorem C4_idle_mark_emits_counterexample :
    (MonitorState.init {} 0).monitoring_active = false ∧
    (mark_tree_build_start (MonitorState.init {} 0) 0 0 "build").event_history.length
      = 1 ∧
    (mark_tree_build_start (MonitorState.init {} 0) 0 0 "build").dispatched.length
      = 1 :=
  ⟨rfl, rfl, rfl⟩

/-- C4 amended: while `is_active()` is false, `check_memory` is a complete
no-op (no history update, no event, no callback), but `mark_tree_build_start`
and `mark_tree_build_end` still append exactly their scope event to the
history and dispatch it — the idle guard does not apply to them. -/
theorem C4_idle_behavior (s : MonitorState) (reading now : Nat)
    (context : String) (h : s.monitoring_active = false) :
    check_memory s reading now context = s ∧
    mark_tree_build_start s reading now context =
      trigger_event s (tree_build_start_event s now context) ∧
    mark_tree_build_end s reading now context =
      trigger_event s (tree_build_end_event s now context) := by
  have hc : ∀ (s2 : MonitorState) (c : String), s2.monitoring_active = false →
      check_memory s2 reading now c = s2 := by
    intro s2 c h2
    unfold check_memory
    rw [if_pos h2]
  refine ⟨hc s context h, ?_, ?_⟩
  · unfold mark_tree_build_start
    exact hc _ _ h
  · unfold mark_tree_build_end
    exact hc _ _ h

/-- Witness for the amended C4 on a freshly constructed idle monitor. -/
theorem C4_idle_behavior_witness :
    (MonitorState.init {} 0).monitoring_active = false ∧
    (check_memory (MonitorState.init {} 0) 5 1 "c" = MonitorState.init {} 0 ∧
     mark_tree_build_start (MonitorState.init {} 0) 5 1 "c" =
       trigger_event (MonitorState.init {} 0)
         (tree_build_start_event (MonitorState.init {} 0) 1 "c") ∧
     mark_tree_build_end (MonitorState.init {} 0) 5 1 "c" =
       trigger_event (MonitorState.init {} 0)
         (tree_build_end_event (MonitorState.init {} 0) 1 "c")) :=
  ⟨rfl, C4_idle_behavior (MonitorState.init {} 0) 5 1 "c" rfl⟩

/-- C2: the spec says `stop()` performs one final synchronous sample before
returning. In the code, `stop` stores `false` into `monitoring_active_`
*before* calling `check_memory("Monitor stopped")`, whose guard then returns
immediately; so `stop` changes nothing but the active flag — the history
update of the final check is always skipped, contradicting the code's own
"Final memory check" comment. -/
theorem C2_stop_skips_final_check (s : MonitorState) (reading now : Nat) :
    stop s reading now = { s with monitoring_active := false } :=
  stop_eq s reading now

/-- C7 counterexample: `nanoflann::start()` does not re-initialize the
session history. An idle monitor carrying an event and a 50 MB peak from a
previous session keeps both across `start()` (with a 0 reading), so history
from the previous session survives into the new session. -/
theorem C7_start_keeps_history_counterexample :
    (({ config := {}
        stats := { peak_memory_mb := 50 }
        event_history := [{ type := EventType.TREE_BUILD_END, memory_mb := 7, timestamp := 3, context := "old", stack_trace := "" }] }
      : MonitorState)).monitoring_active = false ∧
    (start
        { config := {}
          stats := { peak_memory_mb := 50 }
          event_history := [{ type := EventType.TREE_BUILD_END, memory_mb := 7, timestamp := 3, context := "old", stack_trace := "" }] }
        0 10).event_history =
      [{ type := EventType.TREE_BUILD_END, memory_mb := 7, timestamp := 3, context := "old", stack_trace := "" }] ∧
    (start
        { config := {}
          stats := { peak_memory_mb := 50 }
          event_history := [{ type := EventType.TREE_BUILD_END, memory_mb := 7, timestamp := 3, context := "old", stack_trace := "" }] }
        0 10).stats.peak_memory_mb = 50 :=
  ⟨rfl, rfl, rfl⟩

/-- C7 amended: `nanoflann::start()` on an idle sampler only sets the active
flag and performs the initial check — it captures no baseline and clears
nothing; clearing the stats and the event log is done only by `reset()`. The
re-initialization the claim describes exists in the `NanoflannMonitor`
variant, whose `start()` re-captures the baseline, resets the peak to that
baseline and the exceeded counter to 0 (that variant keeps no event log). -/
theorem C7_start_reinit_amended :
    (∀ (s : MonitorState) (reading now : Nat), s.monitoring_active = false →
        start s reading now =
          process_memory_check { s with monitoring_active := true } reading now
            "Monitor started") ∧
    (∀ (s : MonitorState) (now : Nat),
        (reset s now).event_history = [] ∧
        (reset s now).stats.peak_memory_mb = 0) ∧
    (∀ (s : NMonState) (b : NanoflannMonitor.MemoryStats),
        s.monitoring = false →
        (nmStart s b).baseline_stats = b ∧ (nmStart s b).peak_stats = b ∧
        (nmStart s b).threshold_exceeded_count = 0) := by
  refine ⟨?_, fun s now => ⟨rfl, rfl⟩, ?_⟩
  · intro s reading now h
    unfold start check_memory
    rw [if_neg (by simp [h])]
    rfl
  · intro s b h
    unfold nmStart
    rw [if_neg (by simp [h])]
    exact ⟨rfl, rfl, rfl⟩

/-- Witness for the amended C7 on concrete idle states. -/
theorem C7_start_reinit_amended_witness :
    (MonitorState.init {} 0).monitoring_active = false ∧
    start (MonitorState.init {} 0) 3 1 =
      process_memory_check
        { (MonitorState.init {} 0) with monitoring_active := true }
        3 1 "Monitor started" ∧
    (NMonState.init {}).monitoring = false ∧
    (nmStart (NMonState.init {}) { rss_bytes := 5 }).baseline_stats =
      { rss_bytes := 5 } :=
  ⟨rfl, C7_start_reinit_amended.1 (MonitorState.init {} 0) 3 1 rfl, rfl,
   (C7_start_reinit_amended.2.2 (NMonState.init {}) { rss_bytes := 5 } rfl).1⟩

/-- C5: monotonic peak invariant. In `nanoflann::update_stats`, immediately
after the update the stored peak is at least the stored current value, and
the peak never decreases. In the `NanoflannMonitor` loop, one iteration
leaves the peak RSS at least the sampled RSS and never decreases it; and a
whole run started by `start` (which resets the peak to the captured
baseline) keeps `peak.rss_bytes >= baseline.rss_bytes` with the baseline
unchanged. -/
theorem C5_peak_invariants :
    (∀ (s : MonitorState) (m t : Nat),
        (update_stats s m t).stats.current_memory_mb ≤
          (update_stats s m t).stats.peak_memory_mb ∧
        s.stats.peak_memory_mb ≤ (update_stats s m t).stats.peak_memory_mb) ∧
    (∀ (s : NMonState) (current : NanoflannMonitor.MemoryStats),
        current.rss_bytes ≤ (monitor_loop_step s current).peak_stats.rss_bytes ∧
        s.peak_stats.rss_bytes ≤
          (monitor_loop_step s current).peak_stats.rss_bytes) ∧
    (∀ (cfg : MonitorConfig) (b : NanoflannMonitor.MemoryStats)
        (readings : List NanoflannMonitor.MemoryStats),
        b.rss_bytes ≤
          (nmRun (nmStart (NMonState.init cfg) b) readings).peak_stats.rss_bytes ∧
        (nmRun (nmStart (NMonState.init cfg) b) readings).baseline_stats = b) := by
  refine ⟨update_stats_peak, monitor_loop_step_peak_ge, ?_⟩
  intro cfg b readings
  constructor
  · have h : (nmStart (NMonState.init cfg) b).peak_stats.rss_bytes = b.rss_bytes := rfl
    have := nmRun_peak_mono (nmStart (NMonState.init cfg) b) readings
    omega
  · rw [nmRun_baseline]
    rfl

theorem process_memory_check_countEnd (s : MonitorState) (reading now : Nat)
    (context : String) :
    countType (process_memory_check s reading now context).dispatched
        EventType.TREE_BUILD_END =
      countType s.dispatched EventType.TREE_BUILD_END := by
  unfold process_memory_check trigger_event countType
  dsimp only
  simp only [update_stats_config, update_stats_dispatched]
  split <;> split <;> (try split) <;> (try split) <;>
    simp_all [update_stats_dispatched, List.countP_append, List.countP_cons,
      beq_iff_eq]

theorem check_memory_countEnd (s : MonitorState) (reading now : Nat)
    (context : String) :
    countType (check_memory s reading now context).dispatched
        EventType.TREE_BUILD_END =
      countType s.dispatched EventType.TREE_BUILD_END := by
  unfold check_memory
  split
  · rfl
  · exact process_memory_check_countEnd s reading now context

theorem mark_start_countEnd (s : MonitorState) (reading now : Nat)
    (context : String) :
    countType (mark_tree_build_start s reading now context).dispatched
        EventType.TREE_BUILD_END =
      countType s.dispatched EventType.TREE_BUILD_END := by
  unfold mark_tree_build_start
  rw [check_memory_countEnd]
  unfold trigger_event countType tree_build_start_event
  simp [List.countP_append, List.countP_cons]

theorem mark_end_countEnd (s : MonitorState) (reading now : Nat)
    (context : String) :
    countType (mark_tree_build_end s reading now context).dispatched
        EventType.TREE_BUILD_END =
      countType s.dispatched EventType.TREE_BUILD_END + 1 := by
  unfold mark_tree_build_end
  rw [check_memory_countEnd]
  unfold trigger_event countType tree_build_end_event
  simp [List.countP_append, List.countP_cons]

/-- C8: idempotent scope end. For a `TreeBuildScope` constructed on any
monitor state, constructing, calling `end()`, and then running the
destructor dispatches exactly one `TREE_BUILD_END` event in total; calling
`end()` twice likewise dispatches exactly one. -/
theorem C8_scope_end_once (s : MonitorState) (r1 t1 r2 t2 r3 t3 : Nat)
    (c c2 c3 : String) :
    countType (TreeBuildScope.dtor
        (TreeBuildScope.endScope (TreeBuildScope.construct s r1 t1 c) r2 t2 c2)
        r3 t3).1.dispatched EventType.TREE_BUILD_END =
      countType s.dispatched EventType.TREE_BUILD_END + 1 ∧
    countType (TreeBuildScope.endScope
        (TreeBuildScope.endScope (TreeBuildScope.construct s r1 t1 c) r2 t2 c2)
        r3 t3 c3).1.dispatched EventType.TREE_BUILD_END =
      countType s.dispatched EventType.TREE_BUILD_END + 1 := by
  constructor <;>
    simp [TreeBuildScope.construct, TreeBuildScope.endScope, TreeBuildScope.dtor,
      mark_end_countEnd, mark_start_countEnd]

theorem process_zero_dispatched (s : MonitorState) (now : Nat)
    (context : String) :
    (process_memory_check s 0 now context).dispatched = s.dispatched := by
  unfold process_memory_check trigger_event
  dsimp only
  simp only [Nat.zero_div, update_stats_config, update_stats_dispatched]
  split <;> (try split) <;> (try split) <;>
    simp_all [update_stats_dispatched]

theorem check_zero_dispatched (s : MonitorState) (now : Nat)
    (context : String) :
    (check_memory s 0 now context).dispatched = s.dispatched := by
  unfold check_memory
  split
  · rfl
  · exact process_zero_dispatched s now context

theorem start_zero_dispatched (s : MonitorState) (now : Nat) :
    (start s 0 now).dispatched = s.dispatched := by
  unfold start
  split
  · rfl
  · exact check_zero_dispatched { s with monitoring_active := true } now
      "Monitor started"

theorem foldl_check_zero_dispatched (ts : List Nat) (s : MonitorState) :
    (List.foldl (fun s2 t => check_memory s2 0 t "Background check") s
        ts).dispatched = s.dispatched := by
  induction ts generalizing s with
  | nil => rfl
  | cons t ts ih =>
      show (List.foldl _ (check_memory s 0 t "Background check") ts).dispatched = _
      rw [ih, check_zero_dispatched]

theorem nmRun_zero_count (s : NMonState) (n : Nat) :
    (nmRun s (List.replicate n {})).threshold_exceeded_count =
      s.threshold_exceeded_count := by
  induction n generalizing s with
  | zero => rfl
  | succ n ih =>
      rw [List.replicate_succ]
      show (nmRun (monitor_loop_step s {}) (List.replicate n {})).threshold_exceeded_count = _
      rw [ih, monitor_loop_step_count]
      simp

/-- C9: graceful degradation. When the platform reader deterministically
returns 0, a full start / check-loop / stop cycle dispatches zero
`THRESHOLD_EXCEEDED` and zero `MEMORY_SPIKE_DETECTED` events for every
configured threshold; and the `NanoflannMonitor` loop run on all-zero
readings leaves `threshold_exceeded_count` at 0. -/
theorem C9_zero_reading_no_alerts :
    (∀ (cfg : Config) (t0 : Nat) (checks : List Nat) (tf : Nat),
        countType (stop
            (List.foldl (fun s2 t => check_memory s2 0 t "Background check")
              (start (MonitorState.init cfg t0) 0 t0) checks)
            0 tf).dispatched EventType.THRESHOLD_EXCEEDED = 0 ∧
        countType (stop
            (List.foldl (fun s2 t => check_memory s2 0 t "Background check")
              (start (MonitorState.init cfg t0) 0 t0) checks)
            0 tf).dispatched EventType.MEMORY_SPIKE_DETECTED = 0) ∧
    (∀ (cfg : MonitorConfig) (n : Nat),
        (nmRun (nmStart (NMonState.init cfg) {})
            (List.replicate n {})).threshold_exceeded_count = 0) := by
  constructor
  · intro cfg t0 checks tf
    have hd : (stop
        (List.foldl (fun s2 t => check_memory s2 0 t "Background check")
          (start (MonitorState.init cfg t0) 0 t0) checks)
        0 tf).dispatched = [] := by
      rw [stop_eq]
      dsimp only
      rw [foldl_check_zero_dispatched, start_zero_dispatched]
      rfl
    rw [hd]
    exact ⟨rfl, rfl⟩
  · intro cfg n
    rw [nmRun_zero_count]
    rfl

theorem estimate_unwrapped (n d s : Nat)
    (h : (n * d * s + n * 8 * 2 + n * 8 * 2 + n * 8) * 12 / 10 < size_t_mod) :
    estimate_tree_memory_usage n d s =
      (n * d * s + n * 8 * 2 + n * 8 * 2 + n * 8) * 12 / 10 / (1024 * 1024) := by
  have hT : n * d * s + n * 8 * 2 + n * 8 * 2 + n * 8 < size_t_mod := by
    have h1 : (n * d * s + n * 8 * 2 + n * 8 * 2 + n * 8) * 10 / 10 ≤
        (n * d * s + n * 8 * 2 + n * 8 * 2 + n * 8) * 12 / 10 :=
      Nat.div_le_div_right (Nat.mul_le_mul_left _ (by omega))
    rw [Nat.mul_div_cancel _ (by omega)] at h1
    omega
  unfold estimate_tree_memory_usage
  dsimp only
  simp only [Nat.mod_mul_mod, ← Nat.add_mod]
  rw [Nat.mod_eq_of_lt hT, Nat.mod_eq_of_lt h]

/-- C10 counterexample: over `size_t` the estimate is not monotone in the
point count. With `dimension = point_type_size = 1` the exact byte total is
`41 * num_points`, which wraps modulo `2 ^ 64`: at `num_points = 2 ^ 58` no
wrap occurs, while at the larger `num_points = 2 ^ 61` the total wraps down
to `2 ^ 61` bytes, so the estimate at `2 ^ 61` points is strictly smaller
than the estimate at `2 ^ 58` points. -/
theorem C10_wrap_counterexample :
    (2 : Nat) ^ 58 ≤ 2 ^ 61 ∧
    estimate_tree_memory_usage (2 ^ 61) 1 1 <
      estimate_tree_memory_usage (2 ^ 58) 1 1 :=
  ⟨by decide, by decide⟩

/-- C10 amended: `estimate_tree_memory_usage` is monotonically
non-decreasing in each of its three arguments *provided the computation
does not overflow `size_t`*: whenever the exact scaled total
`(n*d*s + n*8*2 + n*8*2 + n*8) * 12 / 10` of the larger input is below
`2 ^ 64` (which bounds every intermediate of both inputs), the wrapped
estimate coincides with the exact one and is non-decreasing; without that
bound the `size_t` arithmetic wraps and monotonicity fails. -/
theorem C10_estimate_monotone_no_overflow :
    (∀ n1 n2 d s : Nat, n1 ≤ n2 →
        (n2 * d * s + n2 * 8 * 2 + n2 * 8 * 2 + n2 * 8) * 12 / 10 < size_t_mod →
        estimate_tree_memory_usage n1 d s ≤ estimate_tree_memory_usage n2 d s) ∧
    (∀ n d1 d2 s : Nat, d1 ≤ d2 →
        (n * d2 * s + n * 8 * 2 + n * 8 * 2 + n * 8) * 12 / 10 < size_t_mod →
        estimate_tree_memory_usage n d1 s ≤ estimate_tree_memory_usage n d2 s) ∧
    (∀ n d s1 s2 : Nat, s1 ≤ s2 →
        (n * d * s2 + n * 8 * 2 + n * 8 * 2 + n * 8) * 12 / 10 < size_t_mod →
        estimate_tree_memory_usage n d s1 ≤ estimate_tree_memory_usage n d s2) := by
  refine ⟨?_, ?_, ?_⟩ <;> intro a b c d h hov <;>
    · first
      | (have hle : (a * c * d + a * 8 * 2 + a * 8 * 2 + a * 8) * 12 / 10 ≤
            (b * c * d + b * 8 * 2 + b * 8 * 2 + b * 8) * 12 / 10 := by gcongr
         rw [estimate_unwrapped _ _ _ (Nat.lt_of_le_of_lt hle hov),
           estimate_unwrapped _ _ _ hov]
         exact Nat.div_le_div_right hle)
      | (have hle : (a * b * d + a * 8 * 2 + a * 8 * 2 + a * 8) * 12 / 10 ≤
            (a * c * d + a * 8 * 2 + a * 8 * 2 + a * 8) * 12 / 10 := by gcongr
         rw [estimate_unwrapped _ _ _ (Nat.lt_of_le_of_lt hle hov),
           estimate_unwrapped _ _ _ hov]
         exact Nat.div_le_div_right hle)
      | (have hle : (a * b * c + a * 8 * 2 + a * 8 * 2 + a * 8) * 12 / 10 ≤
            (a * b * d + a * 8 * 2 + a * 8 * 2 + a * 8) * 12 / 10 := by gcongr
         rw [estimate_unwrapped _ _ _ (Nat.lt_of_le_of_lt hle hov),
           estimate_unwrapped _ _ _ hov]
         exact Nat.div_le_div_right hle)

/-- Witness for the amended C10 at concrete non-overflowing inputs. -/
theorem C10_estimate_monotone_no_overflow_witness :
    (3 ≤ 5 ∧ (5 * 2 * 8 + 5 * 8 * 2 + 5 * 8 * 2 + 5 * 8) * 12 / 10 < size_t_mod ∧
      estimate_tree_memory_usage 3 2 8 ≤ estimate_tree_memory_usage 5 2 8) ∧
    (2 ≤ 4 ∧ (7 * 4 * 8 + 7 * 8 * 2 + 7 * 8 * 2 + 7 * 8) * 12 / 10 < size_t_mod ∧
      estimate_tree_memory_usage 7 2 8 ≤ estimate_tree_memory_usage 7 4 8) ∧
    (4 ≤ 8 ∧ (7 * 2 * 8 + 7 * 8 * 2 + 7 * 8 * 2 + 7 * 8) * 12 / 10 < size_t_mod ∧
      estimate_tree_memory_usage 7 2 4 ≤ estimate_tree_memory_usage 7 2 8) :=
  ⟨⟨by decide, by decide,
    C10_estimate_monotone_no_overflow.1 3 5 2 8 (by decide) (by decide)⟩,
   ⟨by decide, by decide,
    C10_estimate_monotone_no_overflow.2.1 7 2 4 8 (by decide) (by decide)⟩,
   ⟨by decide, by decide,
    C10_estimate_monotone_no_overflow.2.2 7 2 4 8 (by decide) (by decide)⟩⟩

end Claims
